import Mathlib

/-! Verification development for the browsable-object gateway.

The definitions below are a shallow embedding of the TypeScript sources:
the query execution and validation gateway (`browsableRequest`, `checkAuth`,
`executeTransaction`, `executeStudioRequest`, `executeQueryForStudio`, ...)
and the client-side remote cursor (`RemoteSqlStorageCursor`).

Modelling conventions:
- JavaScript values carried in JSON bodies are modelled by `JsValue`; a JS
  `undefined` or `null` field is modelled by `Option.none` at the places the
  gateway only distinguishes nullish from non-nullish values.
- Thrown JS values are modelled by `JsError` (an `Error` instance carrying its
  message, or a thrown non-Error value carrying its `String(x)` rendering);
  fallible code returns `Except JsError`.
- The execution adapter (`ExecFunction`) is a parameter; the functions that
  call it additionally return the list of calls made to it (an `ExecCall`
  trace), so that claims about how often the adapter is invoked are statable.
- Machine strings are Lean `String`s; the JS `split`, `startsWith`, `endsWith`
  and `atob` primitives are re-implemented over the character lists.
-/

/-- A JSON value, as carried in request and response bodies. -/
inductive JsValue where
  | null
  | bool (b : Bool)
  | num (n : Int)
  | str (s : String)
  | arr (elems : List JsValue)
  | obj (fields : List (String × JsValue))

/-- A JS object as built up by property assignment: an insertion-ordered
association list with unique keys. -/
abbrev JsObject := List (String × JsValue)

/-- JS property assignment `o[k] = v`: overwrite in place if the key exists,
else append (insertion order preserved). -/
def objSet (o : JsObject) (k : String) (v : JsValue) : JsObject :=
  if o.any (fun p => p.1 == k) then
    o.map (fun p => if p.1 == k then (k, v) else p)
  else o ++ [(k, v)]

/-- JS `Object.values(o)`. -/
def objValues (o : JsObject) : List JsValue := o.map (fun p => p.2)

/-- JS truthiness of a JSON value (`NaN` does not arise in the model). -/
def JsValue.truthy : JsValue → Bool
  | .null => false
  | .bool b => b
  | .num n => n != 0
  | .str s => s != ""
  | .arr _ => true
  | .obj _ => true

/-- Field access `j.k` on a parsed JSON value; `none` models `undefined`
(also for access on a non-object). -/
def JsValue.getField (j : JsValue) (key : String) : Option JsValue :=
  match j with
  | .obj fields => fields.lookup key
  | _ => none

/-- Truthiness of `j.k`, with `undefined` being falsy. -/
def fieldTruthy (j : JsValue) (key : String) : Bool :=
  ((j.getField key).map JsValue.truthy).getD false

mutual
/-- JS `String(x)` coercion on JSON values (arrays join their elements with
commas, objects render as `[object Object]`). -/
def jsStringOf : JsValue → String
  | .null => "null"
  | .bool true => "true"
  | .bool false => "false"
  | .num n => toString n
  | .str s => s
  | .arr elems => jsStringOfList elems
  | .obj _ => "[object Object]"

/-- Comma-joined rendering of array elements, as `Array.prototype.toString`. -/
def jsStringOfList : List JsValue → String
  | [] => ""
  | [x] => jsStringOf x
  | x :: xs => jsStringOf x ++ "," ++ jsStringOfList xs
end

/-- A thrown JS value: an `Error` instance with its message, or a non-Error
value with its `String(x)` rendering. -/
inductive JsError where
  | error (message : String)
  | nonError (stringValue : String)
deriving Repr, DecidableEq

/-- Splitting a character list on a separator character, as JS
`String.prototype.split` with a one-character separator. -/
def splitOnCharAux (c : Char) : List Char → List (List Char)
  | [] => [[]]
  | x :: xs =>
    if x == c then [] :: splitOnCharAux c xs
    else
      match splitOnCharAux c xs with
      | [] => [[x]]
      | r :: rs => (x :: r) :: rs

/-- JS `s.split(c)` for a one-character separator `c`. -/
def jsSplit (c : Char) (s : String) : List String :=
  (splitOnCharAux c s.data).map List.asString

/-- JS `s.startsWith(p)` (exact code-unit prefix). -/
def jsStartsWith (s p : String) : Bool := p.data.isPrefixOf s.data

/-- JS `s.endsWith(p)` (exact code-unit suffix). -/
def jsEndsWith (s p : String) : Bool := p.data.isSuffixOf s.data

/-- The base64 alphabet used by `atob`. -/
def b64Alphabet : List Char :=
  "ABCDEFGHIJKLMNOPQRSTUVWXYZabcdefghijklmnopqrstuvwxyz0123456789+/".data

/-- Index of a character in the base64 alphabet; `none` for padding and any
character outside the alphabet. -/
def b64Index (c : Char) : Option Nat :=
  let i := b64Alphabet.indexOf c
  if i < 64 then some i else none

/-- Regroup a list of 6-bit values into 8-bit bytes, as base64 decoding does
(a trailing group of two or three sextets yields one or two bytes). -/
def sextetsToBytes : List Nat → List Nat
  | a :: b :: c :: d :: rest =>
    (a * 4 + b / 16) :: ((b % 16) * 16 + c / 4) :: ((c % 4) * 64 + d) ::
      sextetsToBytes rest
  | [a, b] => [a * 4 + b / 16]
  | [a, b, c] => [a * 4 + b / 16, (b % 16) * 16 + c / 4]
  | _ => []

/-- The ASCII whitespace characters removed by forgiving-base64 decoding. -/
def isAsciiWhitespace (c : Char) : Bool :=
  c == ' ' || c == '\t' || c == '\n' || c == '\x0c' || c == '\r'

/-- Strip the trailing `=` padding (one or two characters) when the input
length is a multiple of four, as forgiving-base64 decoding does. -/
def dropBase64Padding (l : List Char) : List Char :=
  if l.length % 4 = 0 then
    match l.reverse with
    | '=' :: '=' :: rest => rest.reverse
    | '=' :: rest => rest.reverse
    | _ => l
  else l

/-- JS `atob`: forgiving-base64 decode to the latin-1 string of the bytes.
After removing ASCII whitespace and trailing padding, an input whose length
is congruent 1 mod 4, or containing any character outside the base64
alphabet, makes the platform throw an `InvalidCharacterError` DOMException,
modelled as `Except.error`. -/
def atob (s : String) : Except JsError String :=
  let data := dropBase64Padding (s.data.filter (fun c => !isAsciiWhitespace c))
  if data.length % 4 = 1 then
    .error (.error "InvalidCharacterError")
  else if data.all (fun c => b64Alphabet.contains c) then
    .ok ((sextetsToBytes (data.filterMap b64Index)).map Char.ofNat).asString
  else
    .error (.error "InvalidCharacterError")

/-- The fixed permissive CORS header set of the gateway. -/
def corsHeaders : List (String × String) :=
  [("Access-Control-Allow-Origin", "*"),
   ("Access-Control-Allow-Methods", "GET, POST, PATCH, PUT, DELETE, OPTIONS"),
   ("Access-Control-Allow-Headers",
     "Authorization, Content-Type, X-Starbase-Source, X-Data-Source"),
   ("Access-Control-Max-Age", "86400")]

/-- The `\x7b result, error \x7d` response envelope; `none` models a JSON
`null` for `result` and an omitted/`undefined` field for `error` (the two are
not distinguished by any consumer in scope). -/
structure Envelope where
  result : Option JsValue
  error : Option String

/-- Response payloads: empty body, plain text, a JSON envelope, or the static
studio HTML page (an opaque asset; its markup is outside the model). -/
inductive ResponseBody where
  | empty
  | text (s : String)
  | envelope (e : Envelope)
  | html

/-- An HTTP response as produced by the gateway. -/
structure Response where
  status : Nat
  headers : List (String × String)
  body : ResponseBody

/-- `createResponse(result, error, status)`: a JSON envelope response carrying
the CORS headers and a JSON content type. -/
def createResponse (result : Option JsValue) (error : Option String)
    (status : Nat) : Response :=
  ⟨status, corsHeaders ++ [("Content-Type", "application/json")],
    .envelope ⟨result, error⟩⟩

/-- Result of a configured query validator. -/
structure ValidationResult where
  isValid : Bool
  error : Option String := none

/-- A query validator: a pure predicate over the raw SQL text. -/
abbrev QueryValidator := String → ValidationResult

/-- The configured basic-auth credential pair. -/
structure BasicAuthConfig where
  username : String
  password : String

/-- Options of the gateway (the `BrowsableOptions` interface). -/
structure BrowsableOptions where
  basicAuth : Option BasicAuthConfig := none
  dangerouslyDisableAuth : Bool := false
  disableStudio : Bool := false
  validator : Option QueryValidator := none

/-- One entry of a raw-query transaction body: a statement plus optional
positional bind values. -/
structure QueryRequest where
  sql : String
  params : Option (List JsValue) := none

/-- The parsed body of a raw-query POST, as destructured by the gateway;
`none` models an absent (or nullish) field. -/
structure RawQueryBody where
  sql : Option String := none
  params : Option (List JsValue) := none
  transaction : Option (List QueryRequest) := none

/-- A parsed studio command. The optional `id` field of the wire shape is only
read by the top-level `studio()` helper, which is outside the claims, so it is
not carried here. `other` covers any body whose `type` tag is neither
`query` nor `transaction`. -/
inductive StudioRequest where
  | query (statement : String)
  | transaction (statements : List String)
  | other

/-- The gateway condition `body.type === "query" || body.type === "transaction"`. -/
def StudioRequest.isQueryOrTransaction : StudioRequest → Bool
  | .other => false
  | _ => true

/-- A parsed request body. A raw-query handler destructuring a studio-shaped
body sees only `undefined` fields and vice versa, which the view functions
below reproduce. -/
inductive RequestBody where
  | rawQuery (b : RawQueryBody)
  | studio (s : StudioRequest)

/-- Destructure `\x7b sql, params, transaction \x7d` from the parsed body. -/
def RequestBody.asRaw : RequestBody → RawQueryBody
  | .rawQuery b => b
  | .studio _ => {}

/-- Read the body as a studio command (a raw-query body has no `type` tag). -/
def RequestBody.asStudio : RequestBody → StudioRequest
  | .studio s => s
  | .rawQuery _ => .other

/-- An incoming HTTP request, with the only header the gateway reads
(`Authorization`, a case-insensitive lookup in the platform) modelled as a
field, and the body already JSON-parsed. -/
structure Request where
  method : String
  pathname : String
  authorization : Option String := none
  body : RequestBody := .rawQuery {}

/-- The `WWW-Authenticate` challenge header emitted by the auth gate. -/
def wwwAuthenticate : String × String :=
  ("WWW-Authenticate", "Basic realm=\"Secure Area\"")

/-- The 401 response for a missing or malformed Authorization header. -/
def challengeResponse : Response :=
  ⟨401, corsHeaders ++ [wwwAuthenticate], .text "Authentication required"⟩

/-- The 401 response for present but mismatched credentials. Note that the
source builds it with the same header spread as `challengeResponse`, so it
also carries the `WWW-Authenticate` header. -/
def invalidCredentialsResponse : Response :=
  ⟨401, corsHeaders ++ [wwwAuthenticate], .text "Invalid credentials"⟩

/-- The 500 response for auth enabled without configured credentials. -/
def authMissingConfigResponse : Response :=
  ⟨500, corsHeaders,
    .text "Authentication configuration missing. Please pass \x27basicAuth\x27 to your Browsable."⟩

/-- The credential parse of `checkAuth`: take the token after the first space,
base64-decode it (`atob` may throw on a token that is not valid base64, and
the exception propagates), split the result on `:` and keep the first two
segments (the JS destructuring `[username, password] = decoded.split(":")`;
a missing segment is `undefined`, modelled as `none`). -/
def parseBasicCredentials (authHeader : String) :
    Except JsError (Option String × Option String) :=
  let encoded := ((jsSplit ' ' authHeader).getD 1 "")
  (atob encoded).map (fun decoded =>
    let parts := jsSplit ':' decoded
    (parts[0]?, parts[1]?))

/-- The auth gate. Returns `none` to proceed and a prebuilt rejection
response to short-circuit; a thrown `atob` exception on a present
`Basic `-prefixed header propagates out as `Except.error`. -/
def checkAuth (req : Request) (options : BrowsableOptions) :
    Except JsError (Option Response) :=
  if options.dangerouslyDisableAuth then
    .ok none
  else
    match options.basicAuth with
    | none => .ok (some authMissingConfigResponse)
    | some cfg =>
      match req.authorization with
      | none => .ok (some challengeResponse)
      | some authHeader =>
        if !jsStartsWith authHeader "Basic " then
          .ok (some challengeResponse)
        else
          match parseBasicCredentials authHeader with
          | .error e => .error e
          | .ok creds =>
            if creds.1 ≠ some cfg.username ∨ creds.2 ≠ some cfg.password then
              .ok (some invalidCredentialsResponse)
            else
              .ok none

/-- The result handle of one executed statement, with both realization modes
of the cursor contract already materialized (`raw()` as positional rows,
`toArray()` as row objects). -/
structure Cursor where
  columnNames : List String
  rowsRead : Nat
  rowsWritten : Nat
  rawRows : List (List JsValue)
  rows : List JsValue

/-- The execution adapter: `(sql, ...params) -> Cursor`, throwing modelled by
`Except.error` (a spread call with no bind values passes the empty list). -/
abbrev ExecFunction := String → List JsValue → Except JsError Cursor

/-- One recorded invocation of the execution adapter. -/
structure ExecCall where
  sql : String
  params : List JsValue

/-- `executeRawQuery`: dispatch to the adapter, spreading the bind values
only when present and non-empty. The `try/catch` of the source logs and
rethrows the same error, so it is the identity on the outcome. The second
component records the adapter call that was made. -/
def executeRawQuery (exec : ExecFunction) (sql : String)
    (params : Option (List JsValue)) : Except JsError Cursor × List ExecCall :=
  match params with
  | some ps =>
    if ps.length ≠ 0 then (exec sql ps, [⟨sql, ps⟩])
    else (exec sql [], [⟨sql, []⟩])
  | none => (exec sql [], [⟨sql, []⟩])

/-- The raw (columns + rows + meta) result shape of one statement. -/
def rawResultShape (cursor : Cursor) : JsValue :=
  .obj [("columns", .arr (cursor.columnNames.map .str)),
        ("rows", .arr (cursor.rawRows.map .arr)),
        ("meta", .obj [("rows_read", .num cursor.rowsRead),
                       ("rows_written", .num cursor.rowsWritten)])]

/-- `executeQuery`: run one statement and realize its cursor. The source
guard `if (!cursor) return []` can never fire (a cursor object is always
truthy), so it has no counterpart here. -/
def executeQuery (exec : ExecFunction) (sql : String)
    (params : Option (List JsValue)) (isRaw : Bool) :
    Except JsError JsValue × List ExecCall :=
  let rt := executeRawQuery exec sql params
  (match rt.1 with
   | .error e => .error e
   | .ok cursor =>
     if isRaw then .ok (rawResultShape cursor)
     else .ok (.arr cursor.rows), rt.2)

/-- The loop body of `executeTransaction`, carrying the results pushed so
far. The source branch `if (!result) return []` (which would discard the
accumulated results) is kept even though a raw result shape is always
truthy. -/
def executeTransactionGo (exec : ExecFunction) :
    List QueryRequest → List JsValue →
    Except JsError (List JsValue) × List ExecCall
  | [], results => (.ok results, [])
  | q :: rest, results =>
    let rt := executeQuery exec q.sql (some (q.params.getD [])) true
    match rt.1 with
    | .error e => (.error e, rt.2)
    | .ok result =>
      if result.truthy then
        let rt2 := executeTransactionGo exec rest (results ++ [result])
        (rt2.1, rt.2 ++ rt2.2)
      else (.ok [], rt.2)

/-- `executeTransaction`: execute the statements in order, collecting one raw
result shape per statement; the first thrown error propagates. -/
def executeTransaction (exec : ExecFunction) (queries : List QueryRequest) :
    Except JsError (List JsValue) × List ExecCall :=
  executeTransactionGo exec queries []

/-- Rendering of `validation.error` inside the JS template string
(an `undefined` error message interpolates as the text `undefined`). -/
def jsInterpolate : Option String → String
  | some s => s
  | none => "undefined"

/-- First rejected entry of a transaction body, with the full message the
gateway puts in the envelope. -/
def firstInvalid (v : QueryValidator) : List QueryRequest → Option String
  | [] => none
  | q :: rest =>
    let r := v q.sql
    if r.isValid then firstInvalid v rest
    else some ("Invalid query: " ++ jsInterpolate r.error)

/-- The validation step of the raw-query route (source lines checking
`transaction` first, then a truthy `sql`): the error message of the 400
response, or `none` to proceed. A falsy `sql` (empty or absent) with no
transaction skips validation entirely. -/
def rawValidationError (validator : Option QueryValidator)
    (b : RawQueryBody) : Option String :=
  match validator with
  | none => none
  | some v =>
    match b.transaction with
    | some queries => firstInvalid v queries
    | none =>
      match b.sql with
      | some s =>
        if s != "" then
          let r := v s
          if r.isValid then none
          else some ("Invalid query: " ++ jsInterpolate r.error)
        else none
      | none => none

/-- First rejected statement of a studio transaction command. -/
def firstInvalidStatement (v : QueryValidator) : List String → Option String
  | [] => none
  | stmt :: rest =>
    let r := v stmt
    if r.isValid then firstInvalidStatement v rest
    else some ("Invalid query: " ++ jsInterpolate r.error)

/-- The validation step of `executeStudioRequest`: the message of the error
it throws, or `none` to proceed. -/
def studioValidationError (validator : Option QueryValidator)
    (cmd : StudioRequest) : Option String :=
  match validator with
  | none => none
  | some v =>
    match cmd with
    | .query stmt =>
      let r := v stmt
      if r.isValid then none
      else some ("Invalid query: " ++ jsInterpolate r.error)
    | .transaction stmts => firstInvalidStatement v stmts
    | .other => none

/-- A studio column descriptor (`\x7b name, displayName, originalType, type \x7d`;
the `type` field is always `undefined` and is omitted here). -/
structure ColumnDescriptor where
  name : String
  displayName : String
  originalType : String

/-- The `stat` block of a studio result. -/
structure StudioStat where
  queryDurationMs : Nat
  rowsAffected : Nat
  rowsRead : Nat
  rowsWritten : Nat

/-- The studio-shaped result of one statement. -/
structure StudioResult where
  headers : List ColumnDescriptor
  rows : List JsObject
  stat : StudioStat

/-- The column rename loop of `executeQueryForStudio`: while the current name
is in the taken set and fewer than 20 attempts were made, retry with the
suffixed name `__<col>_<i>`. The loop counter `i` runs upward from 0 while
the structural argument `fuel` (the remaining attempts, `20 - i`) runs down. -/
def renameLoopFuel (columnSet : List String) (colName : String) :
    String → Nat → Nat → String
  | current, _, 0 => current
  | current, i, fuel + 1 =>
    if current ∈ columnSet then
      renameLoopFuel columnSet colName
        ("__" ++ colName ++ "_" ++ toString i) (i + 1) fuel
    else current

/-- The rename loop at its call site: starting name `colName`, `i = 0`,
bound of 20 attempts. -/
def renameLoop (columnSet : List String) (colName current : String)
    (i : Nat) : String :=
  renameLoopFuel columnSet colName current i (20 - i)

/-- One studio row object: `columnNames.reduce((a, b, idx) => ...)` keyed by
the descriptor names. -/
def studioRow (headers : List ColumnDescriptor) (r : List JsValue) : JsObject :=
  headers.enum.foldl (fun a p => objSet a p.2.name (r.getD p.1 .null)) []

/-- `executeQueryForStudio`: run one statement and reshape its raw rows into
the studio structure. The taken-name set is `new Set()` in the source and is
never added to afterwards, so every descriptor keeps its original name. -/
def executeQueryForStudio (exec : ExecFunction) (statement : String) :
    Except JsError StudioResult × List ExecCall :=
  let rt := executeRawQuery exec statement none
  (match rt.1 with
   | .error e => .error e
   | .ok cursor =>
     let columnSet : List String := []
     let headers := cursor.columnNames.map
       (fun colName => ColumnDescriptor.mk
         (renameLoop columnSet colName colName 0) colName "text")
     .ok ⟨headers, cursor.rawRows.map (studioRow headers),
          ⟨0, 0, cursor.rowsRead, cursor.rowsWritten⟩⟩, rt.2)

/-- JSON rendering of a studio column descriptor (the `type: undefined`
field disappears on serialization). -/
def ColumnDescriptor.toJson (d : ColumnDescriptor) : JsValue :=
  .obj [("name", .str d.name), ("displayName", .str d.displayName),
        ("originalType", .str d.originalType)]

/-- JSON rendering of a studio result. -/
def StudioResult.toJson (r : StudioResult) : JsValue :=
  .obj [("headers", .arr (r.headers.map ColumnDescriptor.toJson)),
        ("rows", .arr (r.rows.map .obj)),
        ("stat", .obj [("queryDurationMs", .num r.stat.queryDurationMs),
                       ("rowsAffected", .num r.stat.rowsAffected),
                       ("rowsRead", .num r.stat.rowsRead),
                       ("rowsWritten", .num r.stat.rowsWritten)])]

/-- The loop of the studio transaction branch: statements in order, each
reshaped, the first thrown error propagating. -/
def studioTransactionGo (exec : ExecFunction) :
    List String → Except JsError (List StudioResult) × List ExecCall
  | [] => (.ok [], [])
  | stmt :: rest =>
    let rt := executeQueryForStudio exec stmt
    match rt.1 with
    | .error e => (.error e, rt.2)
    | .ok res =>
      let rt2 := studioTransactionGo exec rest
      ((rt2.1).map (fun results => res :: results), rt.2 ++ rt2.2)

/-- `executeStudioRequest`: validate (throwing an `Error` on the first
rejected statement), then execute the command. A command with an unknown tag
returns `undefined` (`none`); the gateway never calls it with one. -/
def executeStudioRequest (exec : ExecFunction) (cmd : StudioRequest)
    (validator : Option QueryValidator) :
    Except JsError (Option JsValue) × List ExecCall :=
  match studioValidationError validator cmd with
  | some msg => (.error (.error msg), [])
  | none =>
    match cmd with
    | .query stmt =>
      let rt := executeQueryForStudio exec stmt
      ((rt.1).map (fun res => some res.toJson), rt.2)
    | .transaction stmts =>
      let rt := studioTransactionGo exec stmts
      ((rt.1).map (fun results =>
        some (.arr (results.map StudioResult.toJson))), rt.2)
    | .other => (.ok none, [])

/-- The 404 fallthrough response of the gateway. -/
def notFoundResponse : Response := ⟨404, [], .text "Not found"⟩

/-- `Response.json(...)`: HTTP 200 with a JSON envelope (no CORS headers on
this constructor). -/
def jsonResponse (env : Envelope) : Response :=
  ⟨200, [("Content-Type", "application/json")], .envelope env⟩

/-- The fixed CORS preflight response. -/
def preflightResponse : Response := ⟨204, corsHeaders, .empty⟩

/-- The studio HTML page response. -/
def studioPageResponse : Response := ⟨200, [("Content-Type", "text/html")], .html⟩

/-- Wrap a successful raw-query execution into
`createResponse(data, undefined, 200)`; a thrown error passes through
uncaught (there is no `try` around the raw-query route). -/
def wrapRawSuccess (r : Except JsError (List JsValue)) :
    Except JsError (Option Response) :=
  r.map (fun results => some (createResponse (some (.arr results)) none 200))

/-- The main gateway handler `browsableRequest`. The first component is the
outcome (`.ok none` is the unmatched-route sentinel, `.error` a JS exception
escaping the handler); the second records every execution adapter call. -/
def browsableRequest (req : Request) (exec : ExecFunction)
    (options : BrowsableOptions) :
    Except JsError (Option Response) × List ExecCall :=
  let isSupported :=
    jsEndsWith req.pathname "/query/raw" || jsEndsWith req.pathname "/studio"
  if !isSupported then (.ok none, [])
  else if req.method == "OPTIONS" then (.ok (some preflightResponse), [])
  else
    match checkAuth req options with
    | .error e => (.error e, [])
    | .ok (some authError) => (.ok (some authError), [])
    | .ok none =>
      if jsEndsWith req.pathname "/query/raw" && req.method == "POST" then
        let b := req.body.asRaw
        match rawValidationError options.validator b with
        | some msg => (.ok (some (createResponse none (some msg) 400)), [])
        | none =>
          let queries :=
            b.transaction.getD [{ sql := b.sql.getD "", params := b.params }]
          let rt := executeTransaction exec queries
          (wrapRawSuccess rt.1, rt.2)
      else if jsEndsWith req.pathname "/studio" && !options.disableStudio then
        if req.method == "GET" then (.ok (some studioPageResponse), [])
        else if req.method == "POST" then
          let body := req.body.asStudio
          if body.isQueryOrTransaction then
            let rt := executeStudioRequest exec body options.validator
            (match rt.1 with
             | .ok v => .ok (some (jsonResponse ⟨v, none⟩))
             | .error (.error m) => .ok (some (jsonResponse ⟨none, some m⟩))
             | .error (.nonError _) =>
               .ok (some (jsonResponse ⟨none, some "Unknown error"⟩)), rt.2)
          else (.ok (some (jsonResponse ⟨none, some "Invalid request"⟩)), [])
        else (.ok (some notFoundResponse), [])
      else (.ok (some notFoundResponse), [])

/-- Outcome of the one network round trip of a remote cursor: a 2xx response
with a parsed JSON body, a non-2xx response with its text body, or a thrown
value (network failure or JSON parse failure). -/
inductive FetchOutcome where
  | ok (data : JsValue)
  | httpError (errorText : String)
  | thrown (e : JsError)

/-- `error instanceof Error ? error : new Error(String(error))`. -/
def toErrorInstance : JsError → JsError
  | .error m => .error m
  | .nonError s => .error s

/-- The memoized state of a `RemoteSqlStorageCursor` after its constructor
ran. `networkCalls` instruments how many fetch round trips were issued. -/
structure RemoteCursorState where
  results : List JsObject
  currentIndex : Nat
  columnNames : List String
  rowsRead : Nat
  rowsWritten : Nat
  error : Option JsError
  isResolved : Bool
  networkCalls : Nat

/-- The all-default fields of a freshly constructed cursor. -/
def emptyRemoteCursor : RemoteCursorState :=
  ⟨[], 0, [], 0, 0, none, false, 0⟩

/-- The elements of a JSON array (`[]` for a non-array, which the source
would not index into either on the paths in scope). -/
def jsonArray : JsValue → List JsValue
  | .arr xs => xs
  | _ => []

/-- Coerce the `result.columns` array into the column name list (property
keys are strings in JS). -/
def jsonStringArray (j : JsValue) : List String :=
  (jsonArray j).map jsStringOf

/-- One materialized row object:
`columnNames.forEach((col, idx) => obj[col] = row[idx])`. -/
def rowToObject (cols : List String) (row : List JsValue) : JsObject :=
  cols.enum.foldl (fun o p => objSet o p.2 (row.getD p.1 .null)) []

/-- `meta.rows_read || 0` and `meta.rows_written || 0`: a truthy numeric
field, else 0. -/
def numOrZero (meta : JsValue) (key : String) : Nat :=
  match meta.getField key with
  | some (.num n) => if n != 0 then n.toNat else 0
  | _ => 0

/-- Resolution of a decoded 2xx envelope into the cursor state
(`executeQuery` of the remote cursor after the `response.json()` call):
a truthy `error` field becomes a thrown `Error`; otherwise the first element
of a non-empty `result` array populates columns, rows and meta. -/
def resolveData (data : JsValue) : RemoteCursorState :=
  if fieldTruthy data "error" then
    { emptyRemoteCursor with
      error := some (.error (jsStringOf ((data.getField "error").getD .null))),
      isResolved := true }
  else
    match data.getField "result" with
    | some (.arr (result0 :: _)) =>
      let cols :=
        if fieldTruthy result0 "columns" then
          jsonStringArray ((result0.getField "columns").getD .null)
        else []
      let rows :=
        if fieldTruthy result0 "rows" then
          (jsonArray ((result0.getField "rows").getD .null)).map
            (fun row => rowToObject cols (jsonArray row))
        else []
      let meta := (result0.getField "meta").getD .null
      let rr := if fieldTruthy result0 "meta" then numOrZero meta "rows_read" else 0
      let rw := if fieldTruthy result0 "meta" then numOrZero meta "rows_written" else 0
      { emptyRemoteCursor with
        results := rows, columnNames := cols, rowsRead := rr,
        rowsWritten := rw, isResolved := true }
    | _ => { emptyRemoteCursor with isResolved := true }

/-- The constructor of `RemoteSqlStorageCursor`: it issues the single network
round trip immediately (one evaluation of `stub` on the query and bindings)
and memoizes the resolution; a non-ok response or a thrown value is converted
into a stored error that surfaces at the first read. -/
def remoteCursorConstructor (stub : String → List JsValue → FetchOutcome)
    (query : String) (bindings : List JsValue) : RemoteCursorState :=
  let st :=
    match stub query bindings with
    | .thrown e =>
      { emptyRemoteCursor with error := some (toErrorInstance e), isResolved := true }
    | .httpError txt =>
      { emptyRemoteCursor with
        error := some (.error ("SQL execution failed: " ++ txt)),
        isResolved := true }
    | .ok data => resolveData data
  { st with networkCalls := 1 }

/-- `ensureResolved`: awaiting the already-settled promise, then rethrowing
the memoized error if there is one. -/
def RemoteCursorState.ensureResolved (c : RemoteCursorState) :
    Except JsError Unit :=
  match c.error with
  | some e => .error e
  | none => .ok ()

/-- `toArray()`: a copy of the memoized rows; the state is untouched. -/
def RemoteCursorState.toArray (c : RemoteCursorState) :
    Except JsError (List JsObject) × RemoteCursorState :=
  (match c.ensureResolved with
   | .error e => .error e
   | .ok _ => .ok c.results, c)

/-- `one()`: the first memoized row, throwing on zero rows. -/
def RemoteCursorState.one (c : RemoteCursorState) :
    Except JsError JsObject × RemoteCursorState :=
  (match c.ensureResolved with
   | .error e => .error e
   | .ok _ =>
     match c.results with
     | [] => .error (.error "No rows returned")
     | r :: _ => .ok r, c)

/-- Result of one `next()` step. -/
inductive NextResult where
  | value (row : JsObject)
  | done

/-- `next()`: incremental consumption over the memoized rows; only the read
index advances. -/
def RemoteCursorState.next (c : RemoteCursorState) :
    Except JsError NextResult × RemoteCursorState :=
  match c.ensureResolved with
  | .error e => (.error e, c)
  | .ok _ =>
    if h : c.currentIndex < c.results.length then
      (.ok (.value (c.results.get ⟨c.currentIndex, h⟩)),
       { c with currentIndex := c.currentIndex + 1 })
    else (.ok .done, c)

/-- `raw()`: positional value rows over the memoized row objects; the state
is untouched. -/
def RemoteCursorState.raw (c : RemoteCursorState) :
    Except JsError (List (List JsValue)) × RemoteCursorState :=
  (match c.ensureResolved with
   | .error e => .error e
   | .ok _ => .ok (c.results.map objValues), c)

/-! Concrete fixtures used by the closed theorems below: a sample cursor and
adapters, and the requests and options the evaluations are run at. -/

/-- A one-row, one-column sample cursor. -/
def sampleCursor : Cursor := ⟨["x"], 1, 0, [[.num 1]], [.obj [("x", .num 1)]]⟩

/-- An adapter that always succeeds with `sampleCursor`. -/
def okExec : ExecFunction := fun _ _ => .ok sampleCursor

/-- An adapter that always throws `Error("boom")`. -/
def throwingExec : ExecFunction := fun _ _ => .error (.error "boom")

/-- A validator that rejects every statement with the message `nope`. -/
def rejectAllValidator : QueryValidator := fun _ => ⟨false, some "nope"⟩

/-- Options with auth disabled and the reject-all validator configured. -/
def validatorOpts : BrowsableOptions :=
  { dangerouslyDisableAuth := true, validator := some rejectAllValidator }

/-- Options with auth disabled and no validator. -/
def noAuthOpts : BrowsableOptions := { dangerouslyDisableAuth := true }

/-- A raw-query POST whose body has an empty `sql` and no transaction. -/
def emptySqlReq : Request :=
  { method := "POST", pathname := "/db/query/raw",
    body := .rawQuery { sql := some "" } }

/-- A raw-query POST with a statement the reject-all validator rejects. -/
def invalidSqlReq : Request :=
  { method := "POST", pathname := "/db/query/raw",
    body := .rawQuery { sql := some "DROP TABLE t" } }

/-- A raw-query POST with a single `SELECT 1` statement. -/
def selectReq : Request :=
  { method := "POST", pathname := "/db/query/raw",
    body := .rawQuery { sql := some "SELECT 1" } }

/-- A GET on the studio route. -/
def studioGetReq : Request := { method := "GET", pathname := "/db/studio" }

/-- Options with auth disabled and the studio disabled. -/
def studioDisabledOpts : BrowsableOptions :=
  { dangerouslyDisableAuth := true, disableStudio := true }

/-- An OPTIONS preflight on the studio route. -/
def preflightReq : Request := { method := "OPTIONS", pathname := "/db/studio" }

/-- Options with basic auth `admin`/`test` (auth enabled). -/
def basicAuthOpts : BrowsableOptions := { basicAuth := some ⟨"admin", "test"⟩ }

/-- A request carrying `Basic base64("admin:wrong")` against those options. -/
def wrongPasswordReq : Request :=
  { method := "POST", pathname := "/db/query/raw",
    authorization := some "Basic YWRtaW46d3Jvbmc=",
    body := .rawQuery { sql := some "SELECT 1" } }

/-- A cursor reporting two columns both literally named `id`. -/
def dupColumnCursor : Cursor := ⟨["id", "id"], 2, 0, [[.num 1, .num 2]], []⟩

/-- An adapter that always returns `dupColumnCursor`. -/
def dupColumnExec : ExecFunction := fun _ _ => .ok dupColumnCursor

/-- Options whose configured basic-auth password contains a colon. -/
def colonPasswordOpts : BrowsableOptions := { basicAuth := some ⟨"admin", "pa:ss"⟩ }

/-- A request carrying exactly `Basic base64("admin:pa:ss")`. -/
def colonPasswordReq : Request :=
  { method := "POST", pathname := "/db/query/raw",
    authorization := some "Basic YWRtaW46cGE6c3M=" }

/-- An adapter that throws on the statement `BOOM` and succeeds with
`sampleCursor` on everything else. -/
def mixedExec : ExecFunction := fun sql _ =>
  if sql = "BOOM" then .error (.error "boom") else .ok sampleCursor

/-- A raw-query POST whose transaction succeeds on its first statement and
throws on its second. -/
def failingTransactionReq : Request :=
  { method := "POST", pathname := "/db/query/raw",
    body := .rawQuery
      { transaction := some [⟨"SELECT 1", none⟩, ⟨"BOOM", none⟩] } }

/-- A raw-query POST carrying no Authorization header. -/
def noHeaderReq : Request := { method := "POST", pathname := "/db/query/raw" }

/-- A request whose Basic token `!!!` is not valid base64. -/
def malformedBasicReq : Request :=
  { method := "POST", pathname := "/db/query/raw",
    authorization := some "Basic !!!" }

/-! Helper lemmas shared by the claim theorems. -/

/-- Dispatching with present bind values: the spread call receives exactly
the given list (also when it is empty, where the length guard routes through
the no-params call with the same arguments). -/
theorem executeRawQuery_some (exec : ExecFunction) (sql : String)
    (ps : List JsValue) :
    executeRawQuery exec sql (some ps) = (exec sql ps, [⟨sql, ps⟩]) := by
  by_cases h : ps = []
  · subst h; simp [executeRawQuery]
  · simp [executeRawQuery, h]

/-- A one-statement transaction: one adapter call, and either the propagated
error or the singleton list of raw result shapes. -/
theorem executeTransaction_single (exec : ExecFunction) (q : QueryRequest) :
    executeTransaction exec [q] =
      ((match exec q.sql (q.params.getD []) with
        | .error e => .error e
        | .ok cursor => .ok [rawResultShape cursor]),
       [⟨q.sql, q.params.getD []⟩]) := by
  rcases h : exec q.sql (q.params.getD []) with e | cursor <;>
    simp [executeTransaction, executeTransactionGo, executeQuery,
      executeRawQuery_some, h, JsValue.truthy, rawResultShape]

/-- A raw result shape is a JS object and therefore truthy. -/
theorem rawResultShape_truthy (cursor : Cursor) :
    (rawResultShape cursor).truthy = true := rfl

/-- If every statement of a prefix succeeds and the next statement throws,
the transaction loop stops there: the error propagates unchanged and the
adapter trace is one call per executed statement (the succeeding prefix plus
the failing one); later statements are never executed. -/
theorem executeTransactionGo_error (exec : ExecFunction) (q : QueryRequest)
    (rest : List QueryRequest) (e : JsError)
    (he : exec q.sql (q.params.getD []) = .error e) :
    ∀ (pre : List QueryRequest) (acc : List JsValue),
      (∀ qr ∈ pre, ∃ c, exec qr.sql (qr.params.getD []) = .ok c) →
      executeTransactionGo exec (pre ++ q :: rest) acc =
        (.error e,
         pre.map (fun qr => ExecCall.mk qr.sql (qr.params.getD [])) ++
           [⟨q.sql, q.params.getD []⟩]) := by
  intro pre
  induction pre with
  | nil =>
    intro acc _
    simp [executeTransactionGo, executeQuery, executeRawQuery_some, he]
  | cons p pre ih =>
    intro acc hpre
    obtain ⟨c, hc⟩ := hpre p (List.mem_cons_self p pre)
    have hrest : ∀ qr ∈ pre, ∃ c, exec qr.sql (qr.params.getD []) = .ok c :=
      fun qr hqr => hpre qr (List.mem_cons_of_mem p hqr)
    have hstep := ih (acc ++ [rawResultShape c]) hrest
    simp only [List.cons_append, executeTransactionGo, executeQuery,
      executeRawQuery_some, hc, rawResultShape_truthy, if_true]
    simp [hstep]

/-- A split never produces the empty list of parts. -/
theorem splitOnCharAux_ne_nil (c : Char) (l : List Char) :
    splitOnCharAux c l ≠ [] := by
  cases l with
  | nil => simp [splitOnCharAux]
  | cons x xs =>
    simp only [splitOnCharAux]
    by_cases h : x == c
    · simp [h]
    · simp only [h, Bool.false_eq_true, if_false]
      rcases he : splitOnCharAux c xs with _ | ⟨r, rs⟩ <;> simp

/-- No part produced by a split contains the separator character. -/
theorem not_mem_splitOnCharAux (c : Char) :
    ∀ (l : List Char), ∀ p ∈ splitOnCharAux c l, c ∉ p := by
  intro l
  induction l with
  | nil =>
    intro p hp
    simp [splitOnCharAux] at hp
    subst hp; simp
  | cons x xs ih =>
    intro p hp
    simp only [splitOnCharAux] at hp
    by_cases hx : x == c
    · simp only [hx, if_true] at hp
      rcases List.mem_cons.mp hp with hp | hp
      · subst hp; simp
      · exact ih p hp
    · simp only [hx, Bool.false_eq_true, if_false] at hp
      rcases he : splitOnCharAux c xs with _ | ⟨r, rs⟩
      · exact absurd he (splitOnCharAux_ne_nil c xs)
      · rw [he] at hp
        rcases List.mem_cons.mp hp with hp | hp
        · subst hp
          intro hmem
          rcases List.mem_cons.mp hmem with hc | hc
          · exact absurd (beq_iff_eq.mpr hc.symm) (by simpa using hx)
          · exact ih r (he ▸ List.mem_cons_self r rs) hc
        · exact ih p (he ▸ List.mem_cons_of_mem r hp)

/-- String form of the previous lemma, for `jsSplit`. -/
theorem not_mem_data_of_mem_jsSplit (c : Char) (s : String) :
    ∀ p ∈ jsSplit c s, c ∉ p.data := by
  intro p hp
  simp only [jsSplit, List.mem_map] at hp
  obtain ⟨q, hq, rfl⟩ := hp
  exact not_mem_splitOnCharAux c s.data q hq

/-- An indexed element of a list is a member of it. -/
theorem mem_of_getElemOpt {α : Type} :
    ∀ (l : List α) (n : Nat) (a : α), l[n]? = some a → a ∈ l
  | x :: xs, 0, a, h => by
    simp at h
    exact h ▸ List.mem_cons_self x xs
  | x :: xs, n + 1, a, h =>
    List.mem_cons_of_mem x (mem_of_getElemOpt xs n a (by simpa using h))
  | [], _, _, h => by simp at h

/-- The second segment of a split on the colon never contains a colon, so it
cannot equal a password containing one. -/
theorem split_password_no_colon (decoded p : String)
    (hcolon : ':' ∈ p.data) : (jsSplit ':' decoded)[1]? ≠ some p :=
  fun heq => not_mem_data_of_mem_jsSplit ':' decoded p
    (mem_of_getElemOpt _ _ _ heq) hcolon

/-- The password segment parsed out of a decodable Basic header never
contains a colon, so it can never equal a configured password containing
one. -/
theorem parseBasic_password_no_colon (h p : String)
    (creds : Option String × Option String)
    (hcolon : ':' ∈ p.data)
    (hparse : parseBasicCredentials h = .ok creds) :
    creds.2 ≠ some p := by
  simp only [parseBasicCredentials] at hparse
  rcases he : atob ((jsSplit ' ' h).getD 1 "") with e | decoded <;>
    rw [he] at hparse
  · simp [Except.map] at hparse
  · simp only [Except.map, Except.ok.injEq] at hparse
    subst hparse
    exact split_password_no_colon decoded p hcolon

/-- Every rejection response of the auth gate has a plain-text body (never a
JSON envelope). -/
theorem checkAuth_body_text (req : Request) (options : BrowsableOptions)
    (r : Response) (h : checkAuth req options = .ok (some r)) :
    ∃ s, r.body = .text s := by
  unfold checkAuth at h
  split at h
  · exact absurd h (by simp)
  · split at h
    · obtain rfl := (Option.some.inj (Except.ok.inj h)).symm
      exact ⟨_, rfl⟩
    · split at h
      · obtain rfl := (Option.some.inj (Except.ok.inj h)).symm
        exact ⟨_, rfl⟩
      · split at h
        · obtain rfl := (Option.some.inj (Except.ok.inj h)).symm
          exact ⟨_, rfl⟩
        · split at h
          · exact absurd h (by simp)
          · split at h
            · obtain rfl := (Option.some.inj (Except.ok.inj h)).symm
              exact ⟨_, rfl⟩
            · exact absurd h (by simp)

/-- A successful studio execution of a query or transaction command always
carries a value (the `undefined` outcome only arises on the unknown tag). -/
theorem executeStudioRequest_ok_isSome (exec : ExecFunction)
    (cmd : StudioRequest) (validator : Option QueryValidator)
    (v : Option JsValue)
    (hcmd : cmd.isQueryOrTransaction = true)
    (h : (executeStudioRequest exec cmd validator).1 = .ok v) :
    v.isSome = true := by
  cases cmd with
  | other => simp [StudioRequest.isQueryOrTransaction] at hcmd
  | query stmt =>
    rcases hv : studioValidationError validator (.query stmt) with _ | msg
    · simp only [executeStudioRequest, hv] at h
      rcases hr : (executeQueryForStudio exec stmt).1 with e | res <;>
        rw [hr] at h <;> simp [Except.map] at h
      subst h; rfl
    · simp [executeStudioRequest, hv] at h
  | transaction stmts =>
    rcases hv : studioValidationError validator (.transaction stmts) with _ | msg
    · simp only [executeStudioRequest, hv] at h
      rcases hr : (studioTransactionGo exec stmts).1 with e | res <;>
        rw [hr] at h <;> simp [Except.map] at h
      subst h; rfl
    · simp [executeStudioRequest, hv] at h

/-- With an empty taken-name set the rename loop is the identity. -/
theorem renameLoopFuel_nil (colName current : String) (i fuel : Nat) :
    renameLoopFuel [] colName current i fuel = current := by
  cases fuel <;> simp [renameLoopFuel]

/-- Since the taken-name set stays empty, the studio column descriptors keep
the cursor column names unchanged for every cursor. -/
theorem studio_headers_never_renamed (cursor : Cursor) (stmt : String) :
    ((executeQueryForStudio (fun _ _ => .ok cursor) stmt).1.map
      (fun r => r.headers.map ColumnDescriptor.name)) = .ok cursor.columnNames := by
  simp only [executeQueryForStudio, executeRawQuery, Except.map, List.map_map]
  have : (ColumnDescriptor.name ∘ fun colName =>
      ColumnDescriptor.mk (renameLoop [] colName colName 0) colName "text") =
      fun colName => colName := by
    funext colName
    simp [Function.comp, renameLoop, renameLoopFuel_nil]
  rw [this]
  simp

/-- `next()` only advances the read index: the memoized fields and the
network call count are untouched. -/
theorem remoteCursor_next_preserves (c : RemoteCursorState) :
    c.next.2.networkCalls = c.networkCalls ∧
    c.next.2.results = c.results ∧
    c.next.2.columnNames = c.columnNames ∧
    c.next.2.error = c.error := by
  unfold RemoteCursorState.next RemoteCursorState.ensureResolved
  rcases hc : c.error with _ | e
  · simp only [hc]
    split <;>
      first
      | exact ⟨rfl, rfl, rfl, rfl⟩
      | exact ⟨rfl, rfl, rfl, hc⟩
  · exact ⟨rfl, rfl, rfl, hc⟩

/-! Claim theorems. -/

/-- C8: for every OPTIONS request on a matched route (raw-query or studio
suffix), regardless of the auth configuration, the gateway returns the fixed
204 preflight response with the permissive CORS header set, the auth gate is
never evaluated (the options are arbitrary and unused), and the execution
adapter is called zero times. -/
theorem options_preflight_bypasses_auth (req : Request) (exec : ExecFunction)
    (options : BrowsableOptions)
    (hsup : jsEndsWith req.pathname "/query/raw" = true ∨
            jsEndsWith req.pathname "/studio" = true)
    (hm : req.method = "OPTIONS") :
    browsableRequest req exec options = (.ok (some preflightResponse), []) := by
  rcases hsup with h | h <;>
    simp [browsableRequest, h, hm]

/-- C8 witness: the preflight request on the studio route, with entirely
default (auth-enabled but credential-less) options. -/
theorem options_preflight_bypasses_auth_witness :
    browsableRequest preflightReq okExec {} = (.ok (some preflightResponse), []) :=
  options_preflight_bypasses_auth preflightReq okExec {} (Or.inr rfl) rfl

/-- C7 counterexample: a GET on the studio route with `disableStudio` set
makes `browsableRequest` return a 404 `Not found` response of its own, not
the unmatched-route sentinel `null` the claim asserts. -/
theorem disabled_studio_returns_404_response :
    browsableRequest studioGetReq okExec studioDisabledOpts =
      (.ok (some notFoundResponse), []) ∧
    notFoundResponse.status = 404 ∧
    (browsableRequest studioGetReq okExec studioDisabledOpts).1 ≠ .ok none :=
  ⟨rfl, rfl, fun h => Option.noConfusion (Except.ok.inj h)⟩

/-- C7 amended: for every GET whose path ends with the studio suffix while
`disableStudio` is set (and auth passes), the gateway itself produces the 404
`Not found` response rather than the null sentinel; only a path matching
neither route suffix yields the sentinel. -/
theorem disabled_studio_404_not_sentinel (req : Request) (exec : ExecFunction)
    (options : BrowsableOptions)
    (hs : jsEndsWith req.pathname "/studio" = true)
    (hm : req.method = "GET")
    (hd : options.disableStudio = true)
    (ha : checkAuth req options = .ok none) :
    browsableRequest req exec options = (.ok (some notFoundResponse), []) := by
  simp [browsableRequest, hs, hm, hd, ha]

/-- C7 witness: the concrete disabled-studio GET. -/
theorem disabled_studio_404_not_sentinel_witness :
    browsableRequest studioGetReq okExec studioDisabledOpts =
      (.ok (some notFoundResponse), []) :=
  disabled_studio_404_not_sentinel studioGetReq okExec studioDisabledOpts
    rfl rfl rfl rfl

/-- C1 counterexample: a raw-query POST whose body is `\x7b sql: "" \x7d` under a
configured validator that rejects every statement (in particular the empty
statement). The claim demands HTTP 400 and zero adapter calls; the gateway
instead skips validation (empty `sql` is falsy), returns the 200 success
envelope and calls the adapter once with the empty statement. -/
theorem emptySql_invalid_validator_still_executes :
    browsableRequest emptySqlReq okExec validatorOpts =
      (.ok (some (createResponse (some (.arr [rawResultShape sampleCursor]))
        none 200)),
       [⟨"", []⟩]) ∧
    (browsableRequest emptySqlReq okExec validatorOpts).2.length = 1 ∧
    rejectAllValidator "" = ⟨false, some "nope"⟩ :=
  ⟨rfl, rfl, rfl⟩

/-- C1 amended: for every raw-query POST with a validator configured, if the
validation step the route actually performs rejects a statement — any entry
of a present transaction array, else a non-empty `sql` string — the gateway
returns HTTP 400 with `Invalid query: ` plus the validator message in the
envelope error field, and the execution adapter is called zero times (the
conclusion holds for every adapter and the call trace is empty). A falsy
`sql` (empty or absent) with no transaction skips validation; see C9. -/
theorem raw_validation_rejected_400 (req : Request) (exec : ExecFunction)
    (options : BrowsableOptions) (msg : String)
    (hp : jsEndsWith req.pathname "/query/raw" = true)
    (hm : req.method = "POST")
    (ha : checkAuth req options = .ok none)
    (hv : rawValidationError options.validator req.body.asRaw = some msg) :
    browsableRequest req exec options =
      (.ok (some (createResponse none (some msg) 400)), []) := by
  simp [browsableRequest, hp, hm, ha, hv]

/-- C1 witness: a rejected `DROP TABLE` statement under the reject-all
validator yields the 400 envelope and an empty adapter trace. -/
theorem raw_validation_rejected_400_witness :
    browsableRequest invalidSqlReq okExec validatorOpts =
      (.ok (some (createResponse none (some "Invalid query: nope") 400)), []) :=
  raw_validation_rejected_400 invalidSqlReq okExec validatorOpts
    "Invalid query: nope" rfl rfl rfl rfl

/-- C9: for every raw-query POST whose body has no transaction and an empty
`sql` string, and any configured validator `v`, the validator is never
invoked (the outcome below does not depend on `v`) and the request proceeds
to the execution adapter with that empty statement: the adapter trace is
exactly one call with the empty sql. -/
theorem empty_sql_skips_validator (req : Request) (exec : ExecFunction)
    (options : BrowsableOptions) (v : QueryValidator)
    (params : Option (List JsValue))
    (hp : jsEndsWith req.pathname "/query/raw" = true)
    (hm : req.method = "POST")
    (ha : checkAuth req options = .ok none)
    (hval : options.validator = some v)
    (hb : req.body.asRaw = { sql := some "", params := params, transaction := none }) :
    browsableRequest req exec options =
      ((match exec "" (params.getD []) with
        | .error e => .error e
        | .ok cursor => .ok (some (createResponse
            (some (.arr [rawResultShape cursor])) none 200))),
       [⟨"", params.getD []⟩]) := by
  rcases h : exec "" (params.getD []) with e | cursor <;>
    simp [browsableRequest, hp, hm, ha, hb, hval, rawValidationError,
      executeTransaction_single, h, wrapRawSuccess, Except.map]

/-- C9 witness: the empty-sql request under the reject-all validator still
reaches the adapter and succeeds. -/
theorem empty_sql_skips_validator_witness :
    browsableRequest emptySqlReq okExec validatorOpts =
      ((match okExec "" ((none : Option (List JsValue)).getD []) with
        | .error e => .error e
        | .ok cursor => .ok (some (createResponse
            (some (.arr [rawResultShape cursor])) none 200))),
       [⟨"", (none : Option (List JsValue)).getD []⟩]) :=
  empty_sql_skips_validator emptySqlReq okExec validatorOpts rejectAllValidator
    none rfl rfl rfl rfl rfl

/-- C3 counterexample: a raw-query POST whose adapter throws `Error("boom")`.
The claim demands a `ResponseEnvelope` carrying the exception text; instead
the whole handler outcome is the escaped exception (no response at all). -/
theorem raw_execution_error_not_enveloped :
    browsableRequest selectReq throwingExec noAuthOpts =
      (.error (.error "boom"), [⟨"SELECT 1", []⟩]) :=
  rfl

/-- C3 amended: on the raw-query route an execution error is not caught by
the gateway: for every POST that reaches execution whose statement list is a
succeeding prefix followed by a statement on which the adapter throws `e`,
`browsableRequest` propagates exactly `e` (original exception preserved,
no envelope), the adapter trace is one call per executed statement — the
prefix plus the failing statement, so no retry — and the statements after
the failing one never execute. (Only the studio route catches execution
errors into the envelope error field.) -/
theorem raw_execution_error_escapes (req : Request) (exec : ExecFunction)
    (options : BrowsableOptions) (pre : List QueryRequest) (q : QueryRequest)
    (rest : List QueryRequest) (e : JsError)
    (hp : jsEndsWith req.pathname "/query/raw" = true)
    (hm : req.method = "POST")
    (ha : checkAuth req options = .ok none)
    (hv : rawValidationError options.validator req.body.asRaw = none)
    (hq : req.body.asRaw.transaction.getD
            [{ sql := req.body.asRaw.sql.getD "",
               params := req.body.asRaw.params }] = pre ++ q :: rest)
    (hpre : ∀ qr ∈ pre, ∃ c, exec qr.sql (qr.params.getD []) = .ok c)
    (he : exec q.sql (q.params.getD []) = .error e) :
    browsableRequest req exec options =
      (.error e,
       pre.map (fun qr => ExecCall.mk qr.sql (qr.params.getD [])) ++
         [⟨q.sql, q.params.getD []⟩]) := by
  simp [browsableRequest, hp, hm, ha, hv, hq, executeTransaction,
    executeTransactionGo_error exec q rest e he pre [] hpre,
    wrapRawSuccess, Except.map]

/-- C3 witness: a transaction whose first statement succeeds and whose
second makes the adapter throw — the exception escapes with both calls on
the trace. -/
theorem raw_execution_error_escapes_witness :
    browsableRequest failingTransactionReq mixedExec noAuthOpts =
      (.error (.error "boom"), [⟨"SELECT 1", []⟩, ⟨"BOOM", []⟩]) :=
  raw_execution_error_escapes failingTransactionReq mixedExec noAuthOpts
    [⟨"SELECT 1", none⟩] ⟨"BOOM", none⟩ [] (.error "boom") rfl rfl rfl rfl rfl
    (fun qr hqr => by
      rw [List.mem_singleton] at hqr
      subst hqr
      exact ⟨sampleCursor, rfl⟩)
    rfl

/-- C2 counterexample: with auth enabled and credentials `admin`/`test`, the
well-formed header `Basic base64("admin:wrong")` is answered by the
`Invalid credentials` 401 — and that response does carry the
`WWW-Authenticate` challenge header, contradicting the claim that the
challenge is emitted only on the missing/malformed case. -/
theorem wrong_password_carries_challenge_header :
    checkAuth wrongPasswordReq basicAuthOpts =
      .ok (some invalidCredentialsResponse) ∧
    wwwAuthenticate ∈ invalidCredentialsResponse.headers :=
  ⟨rfl, by decide⟩

/-- C2 amended: for every request with auth enabled and a present,
well-formed Basic header that decodes to credentials whose username or
password does not match the configured pair, the auth gate returns the
`Invalid credentials` 401 response, and that response carries the same
`WWW-Authenticate` challenge header as the missing/malformed case (only the
body text distinguishes the two 401 variants). -/
theorem mismatched_credentials_401_with_challenge (req : Request)
    (options : BrowsableOptions) (cfg : BasicAuthConfig) (hdr : String)
    (creds : Option String × Option String)
    (hd : options.dangerouslyDisableAuth = false)
    (hb : options.basicAuth = some cfg)
    (ha : req.authorization = some hdr)
    (hs : jsStartsWith hdr "Basic " = true)
    (hparse : parseBasicCredentials hdr = .ok creds)
    (hmis : creds.1 ≠ some cfg.username ∨ creds.2 ≠ some cfg.password) :
    checkAuth req options = .ok (some invalidCredentialsResponse) ∧
    invalidCredentialsResponse.status = 401 ∧
    wwwAuthenticate ∈ invalidCredentialsResponse.headers := by
  refine ⟨?_, rfl, by simp [invalidCredentialsResponse, corsHeaders]⟩
  simp [checkAuth, hd, hb, ha, hs, hparse, hmis]

/-- C2 witness: the concrete wrong-password request. -/
theorem mismatched_credentials_401_with_challenge_witness :
    checkAuth wrongPasswordReq basicAuthOpts =
      .ok (some invalidCredentialsResponse) ∧
    invalidCredentialsResponse.status = 401 ∧
    wwwAuthenticate ∈ invalidCredentialsResponse.headers :=
  mismatched_credentials_401_with_challenge wrongPasswordReq basicAuthOpts
    ⟨"admin", "test"⟩ "Basic YWRtaW46d3Jvbmc=" (some "admin", some "wrong")
    rfl rfl rfl rfl rfl (Or.inr (by decide))

/-- C10 counterexample: with a colon-containing password configured, a
request with no Authorization header gets the `Authentication required`
challenge 401 — a different response from `Invalid credentials` — and a
request whose Basic token `!!!` is not valid base64 makes `atob` throw, so
the gate produces no response at all; both refute the claim that every
request receives a 401 `Invalid credentials` response. -/
theorem colon_password_missing_header_still_challenge :
    checkAuth noHeaderReq colonPasswordOpts = .ok (some challengeResponse) ∧
    challengeResponse ≠ invalidCredentialsResponse ∧
    checkAuth malformedBasicReq colonPasswordOpts =
      .error (.error "InvalidCharacterError") :=
  ⟨rfl,
   fun h => by simp [challengeResponse, invalidCredentialsResponse] at h,
   rfl⟩

/-- C10 amended: if the configured basic-auth password contains a colon,
authentication can never succeed — the auth gate never returns the proceed
signal for any request. A request with a present `Basic `-prefixed header
whose token decodes under forgiving base64 (in particular the exact
`base64(username + ":" + password)` credential) receives the 401
`Invalid credentials` response, because the decoded string is split on `:`
and the second segment, which cannot contain a colon, is compared against
the configured password; a missing Authorization header receives the 401
challenge; and a `Basic ` header whose token is not valid base64 makes
`atob` throw, the exception propagating out of the gate. -/
theorem colon_password_never_authenticates (options : BrowsableOptions)
    (cfg : BasicAuthConfig)
    (hd : options.dangerouslyDisableAuth = false)
    (hb : options.basicAuth = some cfg)
    (hc : ':' ∈ cfg.password.data) :
    (∀ req : Request, checkAuth req options ≠ .ok none)
    ∧ (∀ (req : Request) (hdr decoded : String),
        req.authorization = some hdr →
        jsStartsWith hdr "Basic " = true →
        atob ((jsSplit ' ' hdr).getD 1 "") = .ok decoded →
        checkAuth req options = .ok (some invalidCredentialsResponse))
    ∧ (∀ req : Request, req.authorization = none →
        checkAuth req options = .ok (some challengeResponse))
    ∧ (∀ (req : Request) (hdr : String) (e : JsError),
        req.authorization = some hdr →
        jsStartsWith hdr "Basic " = true →
        atob ((jsSplit ' ' hdr).getD 1 "") = .error e →
        checkAuth req options = .error e) := by
  refine ⟨?_, ?_, ?_, ?_⟩
  · intro req heq
    rcases ha : req.authorization with _ | hdr
    · simp [checkAuth, hd, hb, ha] at heq
    · by_cases hs : jsStartsWith hdr "Basic " = true
      · rcases hparse : parseBasicCredentials hdr with e | creds
        · simp [checkAuth, hd, hb, ha, hs, hparse] at heq
        · have hor : creds.1 ≠ some cfg.username ∨
              creds.2 ≠ some cfg.password :=
            Or.inr (parseBasic_password_no_colon hdr cfg.password creds hc hparse)
          simp [checkAuth, hd, hb, ha, hs, hparse, hor] at heq
      · simp only [Bool.not_eq_true] at hs
        simp [checkAuth, hd, hb, ha, hs] at heq
  · intro req hdr decoded ha hs hdec
    have hdec2 := hdec
    simp only [List.getD_eq_getElem?_getD] at hdec2
    have hparse : parseBasicCredentials hdr =
        .ok ((jsSplit ':' decoded)[0]?, (jsSplit ':' decoded)[1]?) := by
      simp [parseBasicCredentials, hdec2, Except.map]
    have hor : (jsSplit ':' decoded)[0]? ≠ some cfg.username ∨
        (jsSplit ':' decoded)[1]? ≠ some cfg.password :=
      Or.inr (split_password_no_colon decoded cfg.password hc)
    simp [checkAuth, hd, hb, ha, hs, hparse, hor]
  · intro req ha
    simp [checkAuth, hd, hb, ha]
  · intro req hdr e ha hs hdec
    have hdec2 := hdec
    simp only [List.getD_eq_getElem?_getD] at hdec2
    have hparse : parseBasicCredentials hdr = .error e := by
      simp [parseBasicCredentials, hdec2, Except.map]
    simp [checkAuth, hd, hb, ha, hs, hparse]

/-- C10 witness: password `pa:ss`, header exactly
`Basic base64("admin:pa:ss")` — still `Invalid credentials`. -/
theorem colon_password_never_authenticates_witness :
    checkAuth colonPasswordReq colonPasswordOpts =
      .ok (some invalidCredentialsResponse) :=
  (colon_password_never_authenticates colonPasswordOpts ⟨"admin", "pa:ss"⟩
    rfl rfl (by decide)).2.1 colonPasswordReq "Basic YWRtaW46cGE6c3M="
    "admin:pa:ss" rfl rfl rfl

/-- C4 (code bug): for a query reporting two columns both literally named
`id`, the studio result keeps the name `id` on both descriptors — the second
is not renamed to `__id_0` — because the taken-name set is created but never
added to; in general the descriptor names always equal the cursor column
names unchanged (both `displayName`s are `id` as the claim says). -/
theorem studio_duplicate_columns_keep_name :
    (executeQueryForStudio dupColumnExec "q").1 =
      .ok ⟨[⟨"id", "id", "text"⟩, ⟨"id", "id", "text"⟩],
           [[("id", .num 2)]], ⟨0, 0, 2, 0⟩⟩ ∧
    (∀ (cursor : Cursor) (stmt : String),
      ((executeQueryForStudio (fun _ _ => .ok cursor) stmt).1.map
        (fun r => r.headers.map ColumnDescriptor.name)) =
        .ok cursor.columnNames) :=
  ⟨rfl, studio_headers_never_renamed⟩

/-- C5: every JSON envelope produced by the gateway — raw-query success,
raw-query validation failure, studio success, studio error — carries exactly
one non-null field: the result is present precisely when the error is
absent. -/
theorem browsable_envelope_exactly_one (req : Request) (exec : ExecFunction)
    (options : BrowsableOptions) (resp : Response) (env : Envelope)
    (hok : (browsableRequest req exec options).1 = .ok (some resp))
    (henv : resp.body = .envelope env) :
    env.result.isSome = env.error.isNone := by
  unfold browsableRequest at hok
  simp only at hok
  split at hok
  · simp at hok
  · split at hok
    · simp at hok
      subst hok
      simp [preflightResponse] at henv
    · split at hok
      case _ e heq =>
        simp at hok
      case _ authError heq =>
        simp at hok
        subst hok
        obtain ⟨s, hs⟩ := checkAuth_body_text req options _ heq
        rw [hs] at henv
        cases henv
      case _ heq =>
        split at hok
        · split at hok
          · simp at hok
            subst hok
            simp [createResponse] at henv
            subst henv
            rfl
          · rcases hr : (executeTransaction exec
                (req.body.asRaw.transaction.getD
                  [{ sql := req.body.asRaw.sql.getD "",
                     params := req.body.asRaw.params }])).1 with e | results
            · rw [hr] at hok
              simp [wrapRawSuccess, Except.map] at hok
            · rw [hr] at hok
              simp [wrapRawSuccess, Except.map] at hok
              subst hok
              simp [createResponse] at henv
              subst henv
              rfl
        · split at hok
          · split at hok
            · simp at hok
              subst hok
              simp [studioPageResponse] at henv
            · split at hok
              · split at hok
                · split at hok
                  case _ v hv =>
                    simp at hok
                    subst hok
                    simp [jsonResponse] at henv
                    subst henv
                    simp [executeStudioRequest_ok_isSome exec _ options.validator v
                      (by assumption) hv]
                  case _ m hv =>
                    simp at hok
                    subst hok
                    simp [jsonResponse] at henv
                    subst henv
                    rfl
                  case _ s hv =>
                    simp at hok
                    subst hok
                    simp [jsonResponse] at henv
                    subst henv
                    rfl
                · simp at hok
                  subst hok
                  simp [jsonResponse] at henv
                  subst henv
                  rfl
              · simp at hok
                subst hok
                simp [notFoundResponse] at henv
          · simp at hok
            subst hok
            simp [notFoundResponse] at henv

/-- C5 witness: the successful raw-query envelope at the concrete `SELECT 1`
request carries a present result and an absent error. -/
theorem browsable_envelope_exactly_one_witness :
    (some (JsValue.arr [rawResultShape sampleCursor]) : Option JsValue).isSome =
      (none : Option String).isNone :=
  browsable_envelope_exactly_one selectReq okExec noAuthOpts
    (createResponse (some (.arr [rawResultShape sampleCursor])) none 200)
    ⟨some (.arr [rawResultShape sampleCursor]), none⟩ rfl rfl

/-- C6: a remote cursor issues its single network round trip at
construction (`networkCalls = 1`), and every read operation is a pure replay
over the memoized state: `toArray`, `one` and `raw` leave the state
untouched (so a second call returns content equal to the first, with the
call count still 1), and `next` preserves the memoized rows, columns, error
and the network call count, advancing only the read index. -/
theorem remoteCursor_single_fetch_memoized
    (stub : String → List JsValue → FetchOutcome) (query : String)
    (bindings : List JsValue) (c : RemoteCursorState) :
    (remoteCursorConstructor stub query bindings).networkCalls = 1
    ∧ c.toArray.2 = c ∧ c.one.2 = c ∧ c.raw.2 = c
    ∧ c.next.2.networkCalls = c.networkCalls
    ∧ c.next.2.results = c.results
    ∧ c.next.2.columnNames = c.columnNames
    ∧ c.next.2.error = c.error
    ∧ c.toArray.2.toArray.1 = c.toArray.1
    ∧ c.one.2.one.1 = c.one.1
    ∧ c.raw.2.raw.1 = c.raw.1 := by
  obtain ⟨h1, h2, h3, h4⟩ := remoteCursor_next_preserves c
  exact ⟨rfl, rfl, rfl, rfl, h1, h2, h3, h4, rfl, rfl, rfl⟩
